import Mathlib

/-!
Verification of the fancy-ui calendar and input components.

The calendar component (src/features/calendar/components/index.tsx) stores its
state in React state cells (`selectedDate`, `currentMonth`, `rangeStart`) and
manipulates JavaScript `Date` values.  We model a JavaScript `Date` by its time
value: the number of milliseconds since the Unix epoch (the environment is
taken to be UTC, so local-time and UTC accessors coincide).  Civil-date
conversions follow the ECMAScript `MakeDay` / date-from-time algorithms,
written with integer `/` and `%` (Euclidean), which agree with the floor
division of the reference algorithms for the positive constant divisors
used here.
-/

namespace FancyUI

/-- Milliseconds per day, as in ECMAScript. -/
def msPerDay : Int := 86400000

/-- Epoch day number of the civil date (y, m, d), month `m` 0-based as in
JavaScript and arbitrary (normalized with floor semantics, as ECMAScript
`MakeDay` does); the day `d` is likewise arbitrary (day overflow simply
shifts the epoch day).  Standard civil-from-days arithmetic on a calendar
whose years run March to February. -/
def daysFromCivil (y m d : Int) : Int :=
  let yAdj := y + m / 12
  let m0 := m % 12
  let y2 := if m0 ≤ 1 then yAdj - 1 else yAdj
  let era := y2 / 400
  let yoe := y2 - era * 400
  let mp := (m0 + 10) % 12
  let doy := (153 * mp + 2) / 5 + (d - 1)
  let doe := yoe * 365 + yoe / 4 - yoe / 100 + doy
  era * 146097 + doe - 719468

/-- Civil date (year, 0-based month, day) of an epoch day number; inverse
direction of `daysFromCivil`. -/
def civilFromDays (z : Int) : Int × Int × Int :=
  let z2 := z + 719468
  let era := z2 / 146097
  let doe := z2 - era * 146097
  let yoe :=
    (doe - doe / 1460 + doe / 36524 - doe / 146096) / 365
  let y := yoe + era * 400
  let doy := doe - (365 * yoe + yoe / 4 - yoe / 100)
  let mp := (5 * doy + 2) / 153
  let d := doy - (153 * mp + 2) / 5 + 1
  let m0 := if mp < 10 then mp + 2 else mp - 10
  let y2 := if m0 ≤ 1 then y + 1 else y
  (y2, m0, d)

/-- A JavaScript `Date`: its time value in milliseconds since the epoch. -/
structure JSDate where
  t : Int
deriving DecidableEq

/-- ECMAScript `Day(t)`: the epoch day containing the instant. -/
def epochDay (dt : JSDate) : Int := dt.t / msPerDay

/-- ECMAScript `TimeWithinDay(t)`: milliseconds past local midnight. -/
def msOfDay (dt : JSDate) : Int := dt.t % msPerDay

/-- Accessor `Date.prototype.getFullYear`. -/
def getFullYear (dt : JSDate) : Int := (civilFromDays (epochDay dt)).1

/-- Accessor `Date.prototype.getMonth` (0-based). -/
def getMonth (dt : JSDate) : Int := (civilFromDays (epochDay dt)).2.1

/-- Accessor `Date.prototype.getDate` (day of month, 1-based). -/
def getDate (dt : JSDate) : Int := (civilFromDays (epochDay dt)).2.2

/-- Accessor `Date.prototype.getDay` (0 = Sunday); 1970-01-01 was a Thursday. -/
def getDay (dt : JSDate) : Int := (epochDay dt + 4) % 7

/-- Constructor `new Date(y, m, d)`: midnight at the start of the (normalized) civil date. -/
def newDate (y m d : Int) : JSDate := ⟨daysFromCivil y m d * msPerDay⟩

/-- Method `Date.prototype.setMonth(mo)` (as a pure copy, matching the component's
`new Date(currentMonth)` followed by `setMonth`): rebuilds the time value from
`MakeDay(YearFromTime(t), mo, DateFromTime(t))` and the time within the day. -/
def setMonth (dt : JSDate) (mo : Int) : JSDate :=
  ⟨daysFromCivil (getFullYear dt) mo (getDate dt) * msPerDay + msOfDay dt⟩

/-- Interface `IDateRange` from src/features/calendar/core/types. -/
structure DateRange where
  from_ : JSDate
  to_ : JSDate
deriving DecidableEq

/-- A defined `SelectedDate` value (`Date | IDateRange`); the TypeScript type
also admits `undefined`, modelled as `Option SelectedDate` elsewhere. -/
inductive SelectedDate where
  | single (d : JSDate)
  | range (r : DateRange)
deriving DecidableEq

/-- The `ICalendarProps` fields the selection logic reads.  `disabledDays` is
optional in the source; `disabledDays?.some(...)` on `undefined` is falsy,
exactly as `List.any` on `[]`, so the missing case is modelled by `[]`. -/
structure CalendarProps where
  disabled : Bool
  disabledDays : List JSDate
  minDate : Option JSDate
  maxDate : Option JSDate
  enableRange : Bool
deriving DecidableEq

/-- The component's React state cells: `selectedDate`, `currentMonth`,
`rangeStart` (the popover `isOpen` flag plays no role in the claims). -/
structure CalendarState where
  selectedDate : Option SelectedDate
  currentMonth : JSDate
  rangeStart : Option JSDate
deriving DecidableEq

/-- Callback invocations the component performs during one handler run, in
invocation order. -/
inductive CalendarEvent where
  | selectEvt (v : SelectedDate)
  | dayClickEvt (d : JSDate)
  | monthChangeEvt (d : JSDate)
deriving DecidableEq

/-- Handler `handleDateClick` of the Calendar component: the new state together with
the callback invocations (`onSelect`, `onDayClick`) it makes, in order. -/
def handleDateClick (p : CalendarProps) (s : CalendarState) (date : JSDate) :
    CalendarState × List CalendarEvent :=
  if p.disabled then (s, [])
  else if p.enableRange then
    match s.rangeStart with
    | none =>
      let newRange : DateRange := ⟨date, date⟩
      ({ s with rangeStart := some date,
                selectedDate := some (SelectedDate.range newRange) },
       [CalendarEvent.selectEvt (SelectedDate.range newRange),
        CalendarEvent.dayClickEvt date])
    | some rangeStart =>
      let start := if date.t < rangeStart.t then date else rangeStart
      let stop := if date.t < rangeStart.t then rangeStart else date
      let newRange : DateRange := ⟨start, stop⟩
      ({ s with rangeStart := none,
                selectedDate := some (SelectedDate.range newRange) },
       [CalendarEvent.selectEvt (SelectedDate.range newRange),
        CalendarEvent.dayClickEvt date])
  else
    ({ s with selectedDate := some (SelectedDate.single date) },
     [CalendarEvent.selectEvt (SelectedDate.single date),
      CalendarEvent.dayClickEvt date])

/-- The `isDisabled` computation of `renderCalendarGrid`:
`disabledDays?.some((d) => d.getTime() === date.getTime()) ||
(minDate && date < minDate) || (maxDate && date > maxDate)`.
`Date` comparison coerces both sides with `valueOf`, i.e. compares
time values. -/
def isDisabledDay (p : CalendarProps) (date : JSDate) : Bool :=
  p.disabledDays.any (fun d => d.t == date.t) ||
    (match p.minDate with
     | some minDate => decide (date.t < minDate.t)
     | none => false) ||
    (match p.maxDate with
     | some maxDate => decide (maxDate.t < date.t)
     | none => false)

/-- A user click on the current-month cell for `date`: the rendered button
carries `disabled={isDisabled || disabled}`, and a disabled button fires no
`onClick`, so `handleDateClick` only runs when neither holds. -/
def clickDay (p : CalendarProps) (s : CalendarState) (date : JSDate) :
    CalendarState × List CalendarEvent :=
  if isDisabledDay p date || p.disabled then (s, [])
  else handleDateClick p s date

/-- Handler `handleMonthChange`: copies `currentMonth`, shifts it with `setMonth`,
stores it and invokes `onMonthChange` with the new month. -/
def handleMonthChange (s : CalendarState) (increment : Int) :
    CalendarState × List CalendarEvent :=
  let newMonth := setMonth s.currentMonth (getMonth s.currentMonth + increment)
  ({ s with currentMonth := newMonth },
   [CalendarEvent.monthChangeEvt newMonth])

/-- The record produced by the `calendarData` memo (the `weekdays` label array
is omitted; it is constant). -/
structure CalendarData where
  daysInMonth : Int
  firstDayOfMonth : Int
  totalCells : Int
  nextMonthDays : Int
deriving DecidableEq

/-- Memo `calendarData`: grid geometry for the month of `cm`.  JavaScript's `%` is
a truncating remainder, but its operands here (`firstDayOfMonth + daysInMonth`
and `7 - (... % 7)`) are nonnegative, where it agrees with `%` on `Int`. -/
def calendarData (cm : JSDate) (fixedWeeks : Bool) : CalendarData :=
  let daysInMonth := getDate (newDate (getFullYear cm) (getMonth cm + 1) 0)
  let firstDayOfMonth := getDay (newDate (getFullYear cm) (getMonth cm) 1)
  let totalCells :=
    if fixedWeeks then 42
    else firstDayOfMonth + daysInMonth +
      (7 - (firstDayOfMonth + daysInMonth) % 7) % 7
  let nextMonthDays := totalCells - (firstDayOfMonth + daysInMonth)
  ⟨daysInMonth, firstDayOfMonth, totalCells, nextMonthDays⟩

/-- Helper `isDateInRange`: false unless range mode is on and the selection is a
defined non-`Date` value; otherwise `date >= from && date <= to`. -/
def isDateInRange (enableRange : Bool) (sel : Option SelectedDate)
    (date : JSDate) : Bool :=
  match enableRange, sel with
  | true, some (SelectedDate.range r) =>
    decide (r.from_.t ≤ date.t) && decide (date.t ≤ r.to_.t)
  | _, _ => false

/-- Helper `isDateRangeStart`: `date.getTime() === selectedDate.from.getTime()` under
the same guards. -/
def isDateRangeStart (enableRange : Bool) (sel : Option SelectedDate)
    (date : JSDate) : Bool :=
  match enableRange, sel with
  | true, some (SelectedDate.range r) => date.t == r.from_.t
  | _, _ => false

/-- Helper `isDateRangeEnd`: `date.getTime() === selectedDate.to.getTime()` under the
same guards. -/
def isDateRangeEnd (enableRange : Bool) (sel : Option SelectedDate)
    (date : JSDate) : Bool :=
  match enableRange, sel with
  | true, some (SelectedDate.range r) => date.t == r.to_.t
  | _, _ => false

/-- The per-cell `isSelected` of `renderCalendarGrid`:
`selectedDate instanceof Date ? selectedDate.getTime() === date.getTime()
: isDateInRange(date)`. -/
def cellIsSelected (enableRange : Bool) (sel : Option SelectedDate)
    (date : JSDate) : Bool :=
  match sel with
  | some (SelectedDate.single d) => d.t == date.t
  | _ => isDateInRange enableRange sel date

/-- The `useEffect` that syncs internal state with the `selected` prop: it
runs only when `selected` is truthy, then stores the value and moves
`currentMonth` to it (`selected instanceof Date ? selected : selected.from`). -/
def syncSelectedEffect (selected : Option SelectedDate) (s : CalendarState) :
    CalendarState :=
  match selected with
  | some sel =>
    { s with selectedDate := some sel,
             currentMonth :=
               match sel with
               | SelectedDate.single d => d
               | SelectedDate.range r => r.from_ }
  | none => s

/-! Input component (src/features/input/components/index.tsx).  The regular
expression selected by `validationType` and the user-supplied
`customValidation` function are modelled as opaque test functions: the regex
engine is library code outside this repository, and claim C9 concerns only
rule ordering and first-failure selection. -/

/-- A validation error message.  `VALIDATION_MESSAGES.required` is a fixed
string; `minLength`/`maxLength` are message templates applied to the bound;
the pattern message is the fixed string for the configured `validationType`;
a custom message is whatever string the custom validator returned. -/
inductive ValidationMessage where
  | requiredMsg
  | minLengthMsg (n : Nat)
  | maxLengthMsg (n : Nat)
  | patternMsg
  | customMsg (s : String)
deriving DecidableEq

/-- The props of the Input component that `validateInput` reads. -/
structure InputValidationProps where
  required : Bool
  minLength : Option Nat
  maxLength : Option Nat
  validationType : Option (String → Bool)
  customValidation : Option (String → Option String)

/-- Interface `IValidationResult`. -/
structure ValidationResult where
  isValid : Bool
  message : Option ValidationMessage
deriving DecidableEq

/-- Check `minLength && value.length < minLength`: JavaScript skips the check when
`minLength` is `undefined` or `0` (both falsy). -/
def minLengthFails (minLength : Option Nat) (value : String) : Bool :=
  match minLength with
  | some n => !(n == 0) && decide (value.length < n)
  | none => false

/-- Check `maxLength && value.length > maxLength`, with the same truthiness guard. -/
def maxLengthFails (maxLength : Option Nat) (value : String) : Bool :=
  match maxLength with
  | some n => !(n == 0) && decide (n < value.length)
  | none => false

/-- Check guarded by `validationType && value` followed by `!pattern.test(value)`: the
pattern rule fires only on a nonempty value that the pattern rejects. -/
def patternFails (validationType : Option (String → Bool)) (value : String) :
    Bool :=
  match validationType with
  | some test => !(value == "") && !(test value)
  | none => false

/-- The custom-validator outcome: `customValidation(value)` is a failure only
when it returns a truthy (nonempty) string. -/
def customFailMsg (customValidation : Option (String → Option String))
    (value : String) : Option String :=
  match customValidation with
  | some f =>
    match f value with
    | some e => if e == "" then none else some e
    | none => none
  | none => none

/-- Function `validateInput` of the Input component: sequential early-return checks. -/
def validateInput (p : InputValidationProps) (value : String) :
    ValidationResult :=
  if p.required && (value == "") then
    { isValid := false, message := some ValidationMessage.requiredMsg }
  else if minLengthFails p.minLength value then
    { isValid := false,
      message := Option.map ValidationMessage.minLengthMsg p.minLength }
  else if maxLengthFails p.maxLength value then
    { isValid := false,
      message := Option.map ValidationMessage.maxLengthMsg p.maxLength }
  else if patternFails p.validationType value then
    { isValid := false, message := some ValidationMessage.patternMsg }
  else
    match customFailMsg p.customValidation value with
    | some e => { isValid := false, message := some (ValidationMessage.customMsg e) }
    | none => { isValid := true, message := none }

/-- A rule outcome: its failure message when the condition holds. -/
def failWhen (b : Bool) (m : ValidationMessage) : Option ValidationMessage :=
  if b then some m else none

/-- Following the spec's words: the validation rules in the fixed order
required → minLength → maxLength → pattern → custom validator, each rule
yielding its failure message when it fails. -/
def specValidationRules (p : InputValidationProps) :
    List (String → Option ValidationMessage) :=
  [fun value => failWhen (p.required && (value == "")) ValidationMessage.requiredMsg,
   fun value => failWhen (minLengthFails p.minLength value)
      (ValidationMessage.minLengthMsg (p.minLength.getD 0)),
   fun value => failWhen (maxLengthFails p.maxLength value)
      (ValidationMessage.maxLengthMsg (p.maxLength.getD 0)),
   fun value => failWhen (patternFails p.validationType value) ValidationMessage.patternMsg,
   fun value => (customFailMsg p.customValidation value).map ValidationMessage.customMsg]

/-- Following the spec's words: the first failing rule wins, no aggregation of
messages; when no rule fails the result is valid with no message. -/
def specValidate (p : InputValidationProps) (value : String) :
    ValidationResult :=
  match (specValidationRules p).findSome? (fun rule => rule value) with
  | some m => { isValid := false, message := some m }
  | none => { isValid := true, message := none }

/-! Concrete dates, props and states used by witnesses and counterexamples. -/

/-- Date `new Date(2024, 0, 5)`. -/
def jan5 : JSDate := newDate 2024 0 5

/-- Date `new Date(2024, 0, 10)`. -/
def jan10 : JSDate := newDate 2024 0 10

/-- Date `new Date(2024, 0, 14)`. -/
def jan14 : JSDate := newDate 2024 0 14

/-- Date `new Date(2024, 0, 15)`. -/
def jan15 : JSDate := newDate 2024 0 15

/-- Date `new Date(2024, 0, 20)`. -/
def jan20 : JSDate := newDate 2024 0 20

/-- Noon on 2024-01-15: same calendar day as `jan15`, different instant. -/
def jan15noon : JSDate := ⟨(newDate 2024 0 15).t + 43200000⟩

/-- Range mode, nothing disabled, no bounds. -/
def rangeProps : CalendarProps :=
  { disabled := false, disabledDays := [], minDate := none, maxDate := none,
    enableRange := true }

/-- Single mode, nothing disabled, no bounds. -/
def singleProps : CalendarProps := { rangeProps with enableRange := false }

/-- Single mode with `minDate = Jan 15 2024` (the spec's §8 scenario). -/
def minDateProps : CalendarProps := { singleProps with minDate := some jan15 }

/-- Single mode with bounds Jan 15 – Jan 20 2024. -/
def boundsProps : CalendarProps :=
  { singleProps with minDate := some jan15, maxDate := some jan20 }

/-- Fresh component state viewing January 2024, nothing selected. -/
def state0 : CalendarState :=
  { selectedDate := none, currentMonth := newDate 2024 0 1, rangeStart := none }

/-- Component state whose `currentMonth` date is Jan 31 2024. -/
def calJan31 : CalendarState := { state0 with currentMonth := newDate 2024 0 31 }

/-! Helper lemmas shared between claims. -/

/-- Two `Date` values have equal time values iff they agree on both the epoch
day and the millisecond within the day. -/
lemma t_eq_iff_day_ms (a b : JSDate) :
    a.t = b.t ↔ (epochDay a = epochDay b ∧ msOfDay a = msOfDay b) := by
  unfold epochDay msOfDay msPerDay
  omega

/-- Unfolding of the `isDisabled` predicate into its three clauses. -/
lemma isDisabledDay_eq_true_iff (p : CalendarProps) (d : JSDate) :
    isDisabledDay p d = true ↔
      ((∃ x ∈ p.disabledDays, x.t = d.t) ∨
       (∃ mn, p.minDate = some mn ∧ d.t < mn.t) ∨
       (∃ mx, p.maxDate = some mx ∧ mx.t < d.t)) := by
  unfold isDisabledDay
  cases hmn : p.minDate <;> cases hmx : p.maxDate <;>
    simp [List.any_eq_true, or_assoc]

/-- C1: For every visible month, `calendarData` produces 42 total grid cells
when `fixedWeeks` is true; when `fixedWeeks` is false the total is
`firstDayOfMonth + daysInMonth` rounded up to the next multiple of 7 (the
least multiple of 7 that is ≥ the sum); and the trailing next-month filler
count always equals `totalCells - firstDayOfMonth - daysInMonth`. -/
theorem calendar_grid_cell_counts (cm : JSDate) :
    (calendarData cm true).totalCells = 42 ∧
    ((calendarData cm false).totalCells % 7 = 0 ∧
     (calendarData cm false).firstDayOfMonth + (calendarData cm false).daysInMonth ≤
       (calendarData cm false).totalCells ∧
     (calendarData cm false).totalCells <
       (calendarData cm false).firstDayOfMonth + (calendarData cm false).daysInMonth + 7) ∧
    ∀ fixedWeeks : Bool,
      (calendarData cm fixedWeeks).nextMonthDays =
        (calendarData cm fixedWeeks).totalCells -
          (calendarData cm fixedWeeks).firstDayOfMonth -
          (calendarData cm fixedWeeks).daysInMonth := by
  refine ⟨rfl, ?_, ?_⟩
  · have h : (calendarData cm false).totalCells =
        (calendarData cm false).firstDayOfMonth + (calendarData cm false).daysInMonth +
          (7 - ((calendarData cm false).firstDayOfMonth +
            (calendarData cm false).daysInMonth) % 7) % 7 := rfl
    omega
  · intro fixedWeeks
    have h : (calendarData cm fixedWeeks).nextMonthDays =
        (calendarData cm fixedWeeks).totalCells -
          ((calendarData cm fixedWeeks).firstDayOfMonth +
            (calendarData cm fixedWeeks).daysInMonth) := rfl
    omega

/-- C10: When the `selected` prop transitions from a defined value to
`undefined`, the sync effect leaves the internal selected date and visible
month unchanged: the previously synced (displayed) selection survives. -/
theorem selected_prop_cleared_noop (v : SelectedDate) (s : CalendarState) :
    (syncSelectedEffect none (syncSelectedEffect (some v) s)).selectedDate =
      (syncSelectedEffect (some v) s).selectedDate ∧
    (syncSelectedEffect none (syncSelectedEffect (some v) s)).currentMonth =
      (syncSelectedEffect (some v) s).currentMonth ∧
    (syncSelectedEffect (some v) s).selectedDate = some v :=
  ⟨rfl, rfl, rfl⟩

/-- C2: In range mode, from an idle tracker, clicking non-disabled dates A
then B yields the same resulting selection as clicking B then A, namely the
range from the earlier to the later of the two instants. -/
theorem range_selection_order_commutes (p : CalendarProps) (s : CalendarState)
    (A B : JSDate)
    (hRange : p.enableRange = true) (hDisabled : p.disabled = false)
    (hIdle : s.rangeStart = none)
    (hA : isDisabledDay p A = false) (hB : isDisabledDay p B = false) :
    (clickDay p (clickDay p s A).1 B).1.selectedDate =
      (clickDay p (clickDay p s B).1 A).1.selectedDate ∧
    (clickDay p (clickDay p s A).1 B).1.selectedDate =
      some (SelectedDate.range ⟨⟨min A.t B.t⟩, ⟨max A.t B.t⟩⟩) := by
  rcases lt_trichotomy A.t B.t with h | h | h
  · simp [clickDay, handleDateClick, hRange, hDisabled, hIdle, hA, hB,
      not_lt_of_lt h, h, min_eq_left h.le, max_eq_right h.le]
  · have hAB : A = B := by cases A; cases B; simpa using h
    subst hAB
    simp [clickDay, handleDateClick, hRange, hDisabled, hIdle, hA]
  · simp [clickDay, handleDateClick, hRange, hDisabled, hIdle, hA, hB,
      not_lt_of_lt h, h, min_eq_right h.le, max_eq_left h.le]

/-- Witness for C2 at the spec's §8 scenario: with range mode on, clicking
Jan 20 2024 then Jan 15 2024 selects the range Jan 15 – Jan 20. -/
theorem range_selection_order_commutes_witness :
    (clickDay rangeProps (clickDay rangeProps state0 jan20).1 jan15).1.selectedDate =
      some (SelectedDate.range ⟨jan15, jan20⟩) := by
  have h := (range_selection_order_commutes rangeProps state0 jan20 jan15
    rfl rfl rfl (by decide) (by decide)).2
  have e1 : (⟨min jan20.t jan15.t⟩ : JSDate) = jan15 := by decide
  have e2 : (⟨max jan20.t jan15.t⟩ : JSDate) = jan20 := by decide
  rw [e1, e2] at h
  exact h

/-- C3: A click on a disabled date — one listed in `disabledDays`, earlier
than `minDate`, later than `maxDate`, or while the whole calendar is disabled
— leaves the state (selected value and range tracker) unchanged and invokes
no callback, in particular not `onSelect`. -/
theorem disabled_click_noop (p : CalendarProps) (s : CalendarState) (d : JSDate)
    (h : p.disabled = true ∨ (∃ x ∈ p.disabledDays, x.t = d.t) ∨
      (∃ mn, p.minDate = some mn ∧ d.t < mn.t) ∨
      (∃ mx, p.maxDate = some mx ∧ mx.t < d.t)) :
    clickDay p s d = (s, []) := by
  unfold clickDay
  rcases h with h | h
  · rw [if_pos]
    rw [h, Bool.or_true]
  · rw [if_pos]
    rw [(isDisabledDay_eq_true_iff p d).2 h, Bool.true_or]

/-- Witness for C3 at the spec's §8 scenario: with `minDate = Jan 15 2024`,
clicking Jan 14 2024 changes nothing and fires no callback. -/
theorem disabled_click_noop_witness :
    clickDay minDateProps state0 jan14 = (state0, []) :=
  disabled_click_noop minDateProps state0 jan14
    (Or.inr (Or.inr (Or.inl ⟨jan15, rfl, by decide⟩)))

/-- C7: A current-month date is marked disabled iff it is in `disabledDays`,
or strictly earlier than `minDate`, or strictly later than `maxDate`; the
bounds are inclusive — with no other rule firing, `minDate` and `maxDate`
themselves are not disabled. -/
theorem disabled_predicate_iff (p : CalendarProps) :
    (∀ d : JSDate, isDisabledDay p d = true ↔
      ((∃ x ∈ p.disabledDays, x.t = d.t) ∨
       (∃ mn, p.minDate = some mn ∧ d.t < mn.t) ∨
       (∃ mx, p.maxDate = some mx ∧ mx.t < d.t))) ∧
    (∀ mn mx, p.minDate = some mn → p.maxDate = some mx →
      p.disabledDays = [] → mn.t ≤ mx.t →
      isDisabledDay p mn = false ∧ isDisabledDay p mx = false) := by
  refine ⟨fun d => isDisabledDay_eq_true_iff p d, ?_⟩
  intro mn mx hmn hmx hdays hle
  constructor
  · rw [← Bool.not_eq_true, isDisabledDay_eq_true_iff]
    rintro (⟨x, hx, -⟩ | ⟨mn2, hmn2, hlt⟩ | ⟨mx2, hmx2, hlt⟩)
    · simp [hdays] at hx
    · rw [hmn] at hmn2
      cases hmn2
      omega
    · rw [hmx] at hmx2
      cases hmx2
      omega
  · rw [← Bool.not_eq_true, isDisabledDay_eq_true_iff]
    rintro (⟨x, hx, -⟩ | ⟨mn2, hmn2, hlt⟩ | ⟨mx2, hmx2, hlt⟩)
    · simp [hdays] at hx
    · rw [hmn] at hmn2
      cases hmn2
      omega
    · rw [hmx] at hmx2
      cases hmx2
      omega

/-- Witness for C7: with bounds Jan 15 – Jan 20 2024 and no disabled list,
neither bound is disabled. -/
theorem disabled_predicate_iff_witness :
    isDisabledDay boundsProps jan15 = false ∧
    isDisabledDay boundsProps jan20 = false :=
  (disabled_predicate_iff boundsProps).2 jan15 jan20 rfl rfl rfl (by decide)

/-- C4 (evaluation at the failing input): with the visible-month state date
Jan 31 2024, navigating +1 month lands on March 2024 — `setMonth` overflows
the day of month past the 29 days of February — and navigating −1 from there
gives February 2024, not the original January. -/
theorem month_nav_plus_minus_failing_eval :
    getFullYear calJan31.currentMonth = 2024 ∧
    getMonth calJan31.currentMonth = 0 ∧
    getMonth ((handleMonthChange calJan31 1).1.currentMonth) = 2 ∧
    getMonth ((handleMonthChange (handleMonthChange calJan31 1).1 (-1)).1.currentMonth) = 1 ∧
    getFullYear ((handleMonthChange (handleMonthChange calJan31 1).1 (-1)).1.currentMonth) = 2024 := by
  decide

/-- C5 (counterexample): noon and midnight of Jan 15 2024 denote the same
year, month and day, yet none of the selection / range-endpoint /
disabled-membership comparisons matches them, because each compares exact
time values. -/
theorem calendar_day_equality_counterexample :
    getFullYear jan15noon = getFullYear jan15 ∧
    getMonth jan15noon = getMonth jan15 ∧
    getDate jan15noon = getDate jan15 ∧
    cellIsSelected true (some (SelectedDate.single jan15noon)) jan15 = false ∧
    cellIsSelected false (some (SelectedDate.single jan15noon)) jan15 = false ∧
    isDateRangeStart true (some (SelectedDate.range ⟨jan15noon, jan15noon⟩)) jan15 = false ∧
    isDateRangeEnd true (some (SelectedDate.range ⟨jan15noon, jan15noon⟩)) jan15 = false ∧
    [jan15noon].any (fun x => x.t == jan15.t) = false := by
  decide

/-- C5 (amended): the selection, range-endpoint and disabled-membership
comparisons are by exact instant — they hold iff the two dates agree on both
the epoch day and the millisecond within the day; agreement on the calendar
day alone is not sufficient. -/
theorem date_compare_by_instant (enableRange : Bool) (d date : JSDate)
    (r : DateRange) (ds : List JSDate) :
    (cellIsSelected enableRange (some (SelectedDate.single d)) date = true ↔
      (epochDay d = epochDay date ∧ msOfDay d = msOfDay date)) ∧
    (isDateRangeStart true (some (SelectedDate.range r)) date = true ↔
      (epochDay date = epochDay r.from_ ∧ msOfDay date = msOfDay r.from_)) ∧
    (isDateRangeEnd true (some (SelectedDate.range r)) date = true ↔
      (epochDay date = epochDay r.to_ ∧ msOfDay date = msOfDay r.to_)) ∧
    (ds.any (fun x => x.t == date.t) = true ↔
      ∃ x ∈ ds, epochDay x = epochDay date ∧ msOfDay x = msOfDay date) := by
  refine ⟨?_, ?_, ?_, ?_⟩
  · simp [cellIsSelected, ← t_eq_iff_day_ms]
  · simp [isDateRangeStart, ← t_eq_iff_day_ms]
  · simp [isDateRangeEnd, ← t_eq_iff_day_ms]
  · simp [List.any_eq_true, ← t_eq_iff_day_ms]

/-- C6 (evaluation at the failing input): a pending range start recorded in
range mode survives a switch of `enableRange` to false and back — nothing
resets `rangeStart` — so a later range-mode click is combined with it.
Click Jan 10 (range mode), Jan 5 (single mode), Jan 20 (range mode again):
the final selection is the range Jan 10 – Jan 20, built from the pending
start recorded before the mode switches. -/
theorem range_mode_switch_stale_pending_eval :
    ((clickDay singleProps (clickDay rangeProps state0 jan10).1 jan5).1.rangeStart
      = some jan10) ∧
    ((clickDay rangeProps
        (clickDay singleProps (clickDay rangeProps state0 jan10).1 jan5).1
        jan20).1.selectedDate
      = some (SelectedDate.range ⟨jan10, jan20⟩)) := by
  decide

/-- C8: For every valid (non-disabled) day click there is a resulting
selected value `v` such that the click stores `v` and invokes exactly the
two callbacks `onSelect v` then `onDayClick date`, in that order. -/
theorem valid_click_callback_order (p : CalendarProps) (s : CalendarState)
    (d : JSDate) (h1 : isDisabledDay p d = false) (h2 : p.disabled = false) :
    ∃ v : SelectedDate,
      (clickDay p s d).2 =
        [CalendarEvent.selectEvt v, CalendarEvent.dayClickEvt d] ∧
      (clickDay p s d).1.selectedDate = some v := by
  cases hR : p.enableRange
  · refine ⟨SelectedDate.single d, ?_, ?_⟩ <;>
      simp [clickDay, handleDateClick, h1, h2, hR]
  · cases hS : s.rangeStart with
    | none =>
      refine ⟨SelectedDate.range ⟨d, d⟩, ?_, ?_⟩ <;>
        simp [clickDay, handleDateClick, h1, h2, hR, hS]
    | some rs =>
      refine ⟨SelectedDate.range ⟨if d.t < rs.t then d else rs,
        if d.t < rs.t then rs else d⟩, ?_, ?_⟩ <;>
        simp [clickDay, handleDateClick, h1, h2, hR, hS]

/-- Witness for C8: a valid single-mode click on Jan 10 2024 fires
`onSelect` with that date and then `onDayClick`, once each. -/
theorem valid_click_callback_order_witness :
    (clickDay singleProps state0 jan10).2 =
      [CalendarEvent.selectEvt (SelectedDate.single jan10),
       CalendarEvent.dayClickEvt jan10] := by
  obtain ⟨v, h1, h2⟩ :=
    valid_click_callback_order singleProps state0 jan10 (by decide) rfl
  have h3 : (clickDay singleProps state0 jan10).1.selectedDate =
      some (SelectedDate.single jan10) := by decide
  have hv : SelectedDate.single jan10 = v := Option.some.inj (h3.symm.trans h2)
  rw [h1, ← hv]

/-- C9: `validateInput` returns the message of the first failing rule in the
fixed order required → minLength → maxLength → pattern → custom validator,
never aggregates several messages, and returns valid with no message when no
rule fails: it agrees with the spec's first-failing-rule-wins semantics. -/
theorem validateInput_first_failing_rule (p : InputValidationProps)
    (value : String) :
    validateInput p value = specValidate p value := by
  unfold validateInput specValidate specValidationRules failWhen
  cases hmin : p.minLength <;> cases hmax : p.maxLength <;>
    cases hc : customFailMsg p.customValidation value <;>
      simp only [List.findSome?, hc] <;>
        split_ifs <;>
          simp_all [minLengthFails, maxLengthFails]

/-- Validation of the date model against known calendar facts: the epoch day
of 1970-01-01, month normalization, leap-year February 2024 versus 2023, the
weekday of Feb 1 2024 (a Thursday, index 4), and the February 2024 grid
geometry (29 days, 4 leading fillers, padded to 35 cells, 2 trailing
fillers). -/
theorem date_model_sanity :
    daysFromCivil 1970 0 1 = 0 ∧
    newDate 2024 0 15 = newDate 2023 12 15 ∧
    getDate (newDate 2024 2 0) = 29 ∧
    getDate (newDate 2023 2 0) = 28 ∧
    getDay (newDate 2024 1 1) = 4 ∧
    calendarData (newDate 2024 1 15) false = ⟨29, 4, 35, 2⟩ := by
  decide

end FancyUI
